import Mathlib

/-!
Shallow embedding of figpager's page-geometry resolver and pagination
state machine (src/figpager/figpager.py), together with theorems checking
the natural-language specification against it.

All inch/millimeter quantities are modelled as exact rationals.
-/

namespace FigPager

/-- Page orientation, as the strings "portrait" / "landscape" in the source. -/
inductive Orient
  | portrait
  | landscape
deriving DecidableEq

/-- Result of `_set_paper_size_orientation`: page width, page height and the
resolved orientation. -/
structure PageGeom where
  pagewidth : ℚ
  pageheight : ℚ
  orient : Orient
deriving DecidableEq

/-- Embedding of `_set_paper_size_orientation` (figpager.py lines 339-383):
`w`, `h` are the catalog `width_in` / `height_in` of the requested paper size,
`o` the requested orientation (`none` when the caller left it unset).
The source infers a missing orientation from the dimension ordering, then
swaps width and height when they disagree with the resolved orientation. -/
def setPaperSizeOrientation (w h : ℚ) (o : Option Orient) : PageGeom :=
  let orient : Orient :=
    match o with
    | none => if h > w then .portrait else .landscape
    | some x => x
  match orient with
  | .portrait => if h < w then ⟨h, w, .portrait⟩ else ⟨w, h, .portrait⟩
  | .landscape => if h > w then ⟨h, w, .landscape⟩ else ⟨w, h, .landscape⟩

/-- The fixed mm-to-inch factor `0.0393701` from `_update_from_layout`. -/
def mmToInch : ℚ := 393701 / 10000000

/-- The mutable margin-frame portion of a `FigPager` instance:
`pagewidth_inch`, `pageheight_inch`, the four margins, `marginpad`,
`framewidth`, `frameheight`, `figure_unit_conversion` and the
`marginframe` flag. -/
structure MState where
  pagewidth : ℚ
  pageheight : ℚ
  leftmargin : ℚ
  rightmargin : ℚ
  topmargin : ℚ
  bottommargin : ℚ
  marginpad : ℚ
  framewidth : ℚ
  frameheight : ℚ
  figure_unit_conversion : ℚ
  marginframe : Bool
deriving DecidableEq

/-- The `MarginFrame` invariant stated by the spec: the frame dimensions
equal the page dimensions minus the opposing margins. -/
def MState.inv (s : MState) : Prop :=
  s.framewidth = s.pagewidth - s.leftmargin - s.rightmargin ∧
  s.frameheight = s.pageheight - s.topmargin - s.bottommargin

instance (s : MState) : Decidable s.inv := by
  unfold MState.inv; infer_instance

/-- First component of a box's `box_position`: either one of the symbolic
tokens compared against in `_box_from_label`, or a numeric value
(anything else would fail the source's `float(...)` call). -/
inductive XPos
  | left_margin
  | right_margin
  | num (q : ℚ)
deriving DecidableEq

/-- Second component of a box's `box_position`. -/
inductive YPos
  | top_margin
  | bottom_margin
  | num (q : ℚ)
deriving DecidableEq

/-- A box's `box_width`: the token `"frame_width"` or a number. -/
inductive BWidth
  | frame_width
  | num (q : ℚ)
deriving DecidableEq

/-- A box's `box_height`: the source replaces the tokens `"left_margin"` and
`"right_margin"` by the current `frameheight`; otherwise a number. -/
inductive BHeight
  | left_margin
  | right_margin
  | num (q : ℚ)
deriving DecidableEq

/-- One `[Boxes]` entry of the layout configuration, with the fields
`_box_from_label` reads. -/
structure BoxCfg where
  box_frame : Bool
  box_position_x : XPos
  box_position_y : YPos
  box_width : BWidth
  box_height : BHeight
deriving DecidableEq

/-- Height resolution of `_box_from_label` (lines 700-701): the tokens
`left_margin` / `right_margin` stand for the current `frameheight`. -/
def resolveHeight (s : MState) (b : BoxCfg) : ℚ :=
  match b.box_height with
  | .num q => q
  | _ => s.frameheight

/-- X-coordinate resolution of `_box_from_label` (lines 703-710). A
`right_margin` anchor adds the raw declared width; if that width is the
string token `"frame_width"` the source's addition is a Python type error,
modelled as `none`. -/
def resolveXcoord (s : MState) (b : BoxCfg) : Option ℚ :=
  match b.box_position_x with
  | .right_margin =>
      match b.box_width with
      | .num w => some (s.pagewidth - s.rightmargin + w)
      | .frame_width => none
  | .left_margin => some s.leftmargin
  | .num q => some q

/-- Width resolution of `_box_from_label` (lines 732-733): the token
`"frame_width"` stands for the current `framewidth`. -/
def resolveWidth (s : MState) (b : BoxCfg) : ℚ :=
  match b.box_width with
  | .frame_width => s.framewidth
  | .num q => q

/-- Vertical margin mutation of `_box_from_label` (lines 712-730).
For a `top_margin` anchor, `ycoord = pageheight - topmargin`, and the guard
`ycoord + height < pageheight - topmargin` admits exactly negative heights;
then `frameheight` grows by the (negative) height and `topmargin` grows by
its absolute value. For a `bottom_margin` anchor, `ycoord = bottommargin`,
and when `ycoord + height > bottommargin` (exactly positive heights) and the
raw width is the `"frame_width"` token, `bottommargin` becomes
`ycoord + height` and `frameheight` shrinks by the height. -/
def vertStep (s : MState) (b : BoxCfg) : MState :=
  let height := resolveHeight s b
  match b.box_position_y with
  | .top_margin =>
      if s.pageheight - s.topmargin + height < s.pageheight - s.topmargin then
        if height < 0 then
          { s with frameheight := s.frameheight + height,
                   topmargin := s.topmargin + |height| }
        else { s with frameheight := s.frameheight + height }
      else s
  | .bottom_margin =>
      if s.bottommargin + height > s.bottommargin then
        match b.box_width with
        | .frame_width =>
            { s with bottommargin := s.bottommargin + height,
                     frameheight := s.frameheight - height }
        | .num _ => s
      else s
  | .num _ => s

/-- Horizontal margin mutation of `_box_from_label` (lines 735-747), applied
after width-token resolution. A positive width whose new left edge
`xcoord + w` exceeds the current left margin replaces `leftmargin` by
`xcoord + w`, shrinking `framewidth` only when `w < framewidth`; a
non-positive width grows `rightmargin` by `|w|` and shrinks `framewidth`
by `|w|`. -/
def horizStep (s : MState) (xcoord w : ℚ) : MState :=
  if w ≠ s.framewidth then
    if w > 0 then
      if xcoord + w > s.leftmargin then
        if w < s.framewidth then
          { s with leftmargin := xcoord + w, framewidth := s.framewidth - w }
        else { s with leftmargin := xcoord + w }
      else s
    else
      { s with rightmargin := s.rightmargin + |w|,
               framewidth := s.framewidth - |w| }
  else s

/-- Margin-state effect of `_box_from_label` (lines 682-747): boxes with
`box_frame` false are skipped; otherwise the x-coordinate is resolved first
(the source computes `xcoord` before the vertical branch, so its type error
aborts everything), then the vertical mutation, then the horizontal one. -/
def boxFromLabel (s : MState) (b : BoxCfg) : Option MState :=
  if b.box_frame then
    match resolveXcoord s b with
    | none => none
    | some xcoord =>
        let s1 := vertStep s b
        some (horizStep s1 xcoord (resolveWidth s1 b))
  else some s

/-- The `[Layout][[Margin]]` section of a layout configuration, restricted to
the fields that drive margin geometry, plus the ordered `[Boxes]` entries. -/
structure Layout where
  figure_unit_mm : Bool
  margin_frame : Bool
  left_margin : ℚ
  right_margin : ℚ
  top_margin : ℚ
  bottom_margin : ℚ
  margin_pad : ℚ
  boxes : List BoxCfg
deriving DecidableEq

/-- Embedding of `_update_from_layout` (lines 527-603) on the margin state:
when `figure_unit` is `"mm"` the conversion factor is set to `mmToInch` and
the page dimensions are multiplied by it (on every call); with
`margin_frame` the margins and pad are read from the configuration times the
conversion factor and the frame dimensions recomputed, otherwise margins are
zeroed and the frame equals the page. -/
def updateFromLayout (L : Layout) (s : MState) : MState :=
  let conv := if L.figure_unit_mm then mmToInch else s.figure_unit_conversion
  let pw := if L.figure_unit_mm then s.pagewidth * conv else s.pagewidth
  let ph := if L.figure_unit_mm then s.pageheight * conv else s.pageheight
  if L.margin_frame then
    { s with figure_unit_conversion := conv, pagewidth := pw, pageheight := ph,
             marginframe := true,
             leftmargin := L.left_margin * conv,
             rightmargin := L.right_margin * conv,
             topmargin := L.top_margin * conv,
             bottommargin := L.bottom_margin * conv,
             marginpad := L.margin_pad * conv,
             framewidth := pw - L.left_margin * conv - L.right_margin * conv,
             frameheight := ph - L.top_margin * conv - L.bottom_margin * conv }
  else
    { s with figure_unit_conversion := conv, pagewidth := pw, pageheight := ph,
             marginframe := false,
             leftmargin := 0, rightmargin := 0, topmargin := 0, bottommargin := 0,
             marginpad := 0, framewidth := pw, frameheight := ph }

/-- Sequential placement of the configured boxes in declaration order
(`draw_page`, lines 939-941). -/
def placeBoxes (s : MState) : List BoxCfg → Option MState
  | [] => some s
  | b :: bs =>
      match boxFromLabel s b with
      | none => none
      | some s1 => placeBoxes s1 bs

/-- Margin-state effect of one `draw_page()` call (lines 871-1029): with the
margin frame enabled, every configured box mutates the state in order and
then `_update_from_layout` is re-run (line 1006); without it the margin
state is untouched. -/
def drawPageMargins (L : Layout) (s : MState) : Option MState :=
  if s.marginframe then
    match placeBoxes s L.boxes with
    | none => none
    | some s1 => some (updateFromLayout L s1)
  else some s

/-- Margin state freshly constructed in `__init__` before any layout update:
page dimensions from `_set_paper_size_orientation`, conversion factor 1,
margins unset (modelled as 0, every field is overwritten by
`updateFromLayout`). -/
def initMState (pw ph : ℚ) : MState :=
  { pagewidth := pw, pageheight := ph,
    leftmargin := 0, rightmargin := 0, topmargin := 0, bottommargin := 0,
    marginpad := 0, framewidth := 0, frameheight := 0,
    figure_unit_conversion := 1, marginframe := false }

/-- Margin state at the end of `__init__` (lines 269-282): the constructor
calls `_update_from_layout` twice and then draws the initial page. -/
def initDrawn (L : Layout) (pw ph : ℚ) : Option MState :=
  drawPageMargins L (updateFromLayout L (updateFromLayout L (initMState pw ph)))

/-- Subplot advance direction, as the strings `"left-to-right"` /
`"top-to-bottom"` in the source. -/
inductive Direction
  | leftToRight
  | topToBottom
deriving DecidableEq

/-- The cursor-relevant fields of a `FigPager` instance: grid shape,
direction, `subplotstartindex`, `currentsubplotindex`, and a count of page
flushes (each `add_page` call performs exactly one flush of the current
page followed by one `draw_page` of the new one). -/
structure CursorState where
  nrows : Int
  ncols : Int
  direction : Direction
  subplotstartindex : Option (Int × Int)
  currentsubplotindex : Option (Int × Int)
  pagesFlushed : Nat
deriving DecidableEq

/-- Cursor-state effect of `add_page` (lines 1119-1276) when called with a
`subplotstartindex` argument and a `direction` argument, all other overrides
left at `None`: the current page is flushed, a start index of `[0, 0]` or
`None` resets the stored start index to `None` (lines 1261-1264), and the
direction is overwritten by the argument (line 1266; its default is
`"left-to-right"`). Grid shape is unchanged. -/
def addPageCursor (ssiArg : Option (Int × Int)) (dirArg : Direction)
    (s : CursorState) : CursorState :=
  { s with pagesFlushed := s.pagesFlushed + 1,
           subplotstartindex :=
             if ssiArg = some (0, 0) ∨ ssiArg = none then none else ssiArg,
           direction := dirArg }

/-- Cursor-state effect of `add_subplot` (lines 1031-1117). `dirArg` models
the `direction` keyword (`none` for a falsy value, which leaves
`self.direction` alone); `posArg` models the explicit `pos` keyword. An
implicit request advances from `currentsubplotindex`; on grid exhaustion it
calls `add_page(subplotstartindex=self.subplotstartindex)` (so with the
default direction `"left-to-right"`) and resumes at the stored start index.
The unreachable source state with a stored start index but no current index
would be a Python type error, modelled as `none`. -/
def addSubplot (dirArg : Option Direction) (posArg : Option (Int × Int))
    (s : CursorState) : Option CursorState :=
  let s := match dirArg with
    | some d => { s with direction := d }
    | none => s
  match posArg with
  | some p =>
      some { s with subplotstartindex := some p, currentsubplotindex := some p }
  | none =>
      match s.direction with
      | .leftToRight =>
          match s.subplotstartindex with
          | none =>
              some { s with subplotstartindex := some (0, 0),
                            currentsubplotindex := some (0, 0) }
          | some ssi =>
              match s.currentsubplotindex with
              | none => none
              | some rc =>
                  if rc.2 < s.ncols - 1 then
                    some { s with currentsubplotindex := some (rc.1, rc.2 + 1) }
                  else if rc.1 < s.nrows - 1 then
                    some { s with currentsubplotindex := some (rc.1 + 1, 0) }
                  else
                    let s1 := addPageCursor (some ssi) .leftToRight s
                    some { s1 with currentsubplotindex := some ssi }
      | .topToBottom =>
          match s.subplotstartindex with
          | none =>
              some { s with subplotstartindex := some (0, 0),
                            currentsubplotindex := some (0, 0) }
          | some ssi =>
              match s.currentsubplotindex with
              | none => none
              | some rc =>
                  if rc.1 < s.nrows - 1 then
                    some { s with currentsubplotindex := some (rc.1 + 1, rc.2) }
                  else if rc.2 < s.ncols - 1 then
                    some { s with currentsubplotindex := some (0, rc.2 + 1) }
                  else
                    let s1 := addPageCursor (some ssi) .leftToRight s
                    some { s1 with currentsubplotindex := some ssi }

/-- An implicit `add_subplot()` call with all keywords at their defaults
(`direction="left-to-right"`, `pos=None`). -/
def implicitSubplot (s : CursorState) : Option CursorState :=
  addSubplot (some .leftToRight) none s

/-- Iterate `n` implicit default `add_subplot()` calls. -/
def implicitIter : Nat → CursorState → Option CursorState
  | 0, s => some s
  | n + 1, s =>
      match implicitSubplot s with
      | none => none
      | some s1 => implicitIter n s1

/-- The list of cursor positions after each of `n` successive implicit
default `add_subplot()` calls (empty tail on a modelled type error). -/
def cursorTrace : Nat → CursorState → List (Option (Int × Int))
  | 0, _ => []
  | n + 1, s =>
      match implicitSubplot s with
      | none => []
      | some s1 => s1.currentsubplotindex :: cursorTrace n s1

/-- Cursor state of a freshly constructed `FigPager` with
`subplotstartindex=None` and `direction="left-to-right"` on an
`nrows × ncols` grid. -/
def initCursor (nrows ncols : Int) : CursorState :=
  { nrows := nrows, ncols := ncols, direction := .leftToRight,
    subplotstartindex := none, currentsubplotindex := none, pagesFlushed := 0 }

/-- Zero-padded page index, `"{:02}".format(n)` in the source. -/
def pad2 (n : Nat) : String :=
  if n < 10 then "0" ++ toString n else toString n

/-- Split a character list at its last `.` character; the extension keeps
the dot. -/
def lastDotSplit : List Char → Option (List Char × List Char)
  | [] => none
  | c :: cs =>
      match lastDotSplit cs with
      | some (b, e) => some (c :: b, e)
      | none => if c = Char.ofNat 46 then some ([], c :: cs) else none

/-- Embedding of `os.path.splitext` for plain file names (no directory
separators): split at the last dot unless every character before it is
itself a dot. -/
def splitext (s : String) : String × String :=
  match lastDotSplit s.data with
  | some (b, e) =>
      if b.any (fun c => c ≠ Char.ofNat 46) then (String.mk b, String.mk e)
      else (s, "")
  | none => (s, "")

/-- The single-file-per-page output bookkeeping of a `FigPager` instance:
`fignumber`, the active filename `new_fname`, the list of filenames written
so far (`newfnameall`), and the base `outfile`. -/
structure DocState where
  fignumber : Nat
  new_fname : String
  written : List String
  outfile : String
deriving DecidableEq

/-- One single-file flush of `add_page` (lines 1187-1207): write the active
filename, then increment `fignumber` and insert the zero-padded page index
before the extension of `outfile` to form the next filename. -/
def flushSingle (s : DocState) : DocState :=
  let fe := splitext s.outfile
  let fn := s.fignumber + 1
  { s with written := s.written ++ [s.new_fname],
           fignumber := fn,
           new_fname := fe.1 ++ "_" ++ pad2 fn ++ fe.2 }

/-- The final non-multipage write of `close` (lines 1286-1299): the active
filename is written once more. -/
def closeSingle (s : DocState) : DocState :=
  { s with written := s.written ++ [s.new_fname] }

/-- Iterated single-file flushes. -/
def flushIter : Nat → DocState → DocState
  | 0, s => s
  | n + 1, s => flushSingle (flushIter n s)

/-- Document state of a freshly constructed single-file `FigPager` with the
given outfile: `fignumber = 1`, active filename equal to the outfile. -/
def initDoc (outfile : String) : DocState :=
  { fignumber := 1, new_fname := outfile, written := [], outfile := outfile }

/-- The filename the `n`-th flush (counting from 0) of a document based on
`plot.png` is expected to write. -/
def expectedPlotName (k : Nat) : String :=
  if k = 0 then "plot.png" else "plot" ++ "_" ++ pad2 (k + 1) ++ ".png"

/-- Outcome of the constructor's outfile handling (lines 134-171):
the resulting `(type, outfile, multipage)` triple, or the raised error
message. `isDir`, `fileExists` model the `os.path` probes, `overwrite` the
constructor flag and `userYes` the interactive confirmation. The output
type is derived from the extension only inside the branch taken when the
outfile already exists. -/
def initOutput (outfile : Option String) (isDir fileExists overwrite userYes : Bool) :
    Except String (Option String × Option String × Bool) :=
  match outfile with
  | none => .ok (none, none, false)
  | some p =>
      if isDir then .error "This is a directory. Please provide a file path."
      else if fileExists then
        if overwrite || userYes then
          let ty : Option String := some ((splitext p).2.drop 1)
          .ok (ty, some p, ty == some "pdf" || ty == some "pgf")
        else .error "Output file already exists and user chose not to overwrite."
      else .ok (none, some p, false)

/-- The three output branches of `add_page`'s flush (lines 1171-1209) and of
`close` (lines 1286-1331). -/
inductive FlushKind
  | pdfSave
  | singleSave
  | displayOnly
deriving DecidableEq

/-- Branch taken by `add_page`'s flush given `self.type`: the pdf/pgf save,
the sequential single-file save, or `plt.show()`. -/
def addPageFlushKind (ty : Option String) : FlushKind :=
  if ty = some "pdf" ∨ ty = some "pgf" then .pdfSave
  else if ty ≠ none then .singleSave
  else .displayOnly

/-- Branch taken by `close` given `self.outfile` and `self.type`. -/
def closeKind (outfile ty : Option String) : FlushKind :=
  match outfile with
  | some _ => if ty = some "pdf" ∨ ty = some "pgf" then .pdfSave else .singleSave
  | none => .displayOnly

/-- An ASCII apostrophe, written via its code point. -/
def quoteChar : String := (Char.ofNat 39).toString

/-- The backend message `add_page` matches on (line 1185). -/
def endStreamMsg : String :=
  quoteChar ++ "NoneType" ++ quoteChar ++ " object has no attribute " ++
    quoteChar ++ "endStream" ++ quoteChar

/-- The domain error message raised for a closed pdf (line 1186). -/
def closedPdfMsg : String := "Cannot add a new page to a closed pdf file."

/-- Outcome of the multipage flush in `add_page` (lines 1171-1186): `err`
is the message of the `AttributeError` raised by the backend save, if any.
Only the exact `endStream` message is re-raised as the domain error; any
other `AttributeError` is swallowed and `add_page` proceeds. -/
def pdfFlushResult (err : Option String) : Except String Unit :=
  match err with
  | none => .ok ()
  | some m => if m = endStreamMsg then .error closedPdfMsg else .ok ()

/-- Token in a text entry's `text_position` (`_text_from_label`,
lines 634-649): one of the four margin tokens or a numeric value; a token
on the wrong axis reaches the source's `float(...)` and is a type error. -/
inductive TextTok
  | left_margin
  | right_margin
  | top_margin
  | bottom_margin
  | num (q : ℚ)
deriving DecidableEq

/-- Absolute x-coordinate of a text entry (lines 634-648). -/
def textXcoordAbs (s : MState) (x : TextTok) : Option ℚ :=
  match x with
  | .right_margin => some (s.pagewidth - s.rightmargin)
  | .left_margin => some s.leftmargin
  | .num q => some q
  | _ => none

/-- Absolute y-coordinate of a text entry (lines 642-649). -/
def textYcoordAbs (s : MState) (y : TextTok) : Option ℚ :=
  match y with
  | .top_margin => some (s.pageheight - s.topmargin)
  | .bottom_margin => some s.bottommargin
  | .num q => some q
  | _ => none

/-- Normalized text position produced by `_text_from_label` (lines 634-680):
token substitution, then the optional offset, then division by the page
dimensions. No figure-unit conversion is applied to declared values. -/
def textNormPos (s : MState) (x y : TextTok) (off : Option (ℚ × ℚ)) :
    Option (ℚ × ℚ) :=
  match textXcoordAbs s x, textYcoordAbs s y with
  | some xa, some ya =>
      let xa := match off with | some o => xa + o.1 | none => xa
      let ya := match off with | some o => ya + o.2 | none => ya
      some (xa / s.pagewidth, ya / s.pageheight)
  | _, _ => none

/-- Modelled from the spec (claim C7): the spec asserts that positions
declared in a millimeter configuration are multiplied by the fixed
conversion factor before any geometry math; this variant applies the
state's conversion factor to declared numeric components and offsets,
for comparison with `textNormPos`, which is the code's behaviour. -/
def textNormPosConverted (s : MState) (x y : TextTok) (off : Option (ℚ × ℚ)) :
    Option (ℚ × ℚ) :=
  let conv := s.figure_unit_conversion
  let xa? : Option ℚ := match x with
    | .num q => some (q * conv)
    | t => textXcoordAbs s t
  let ya? : Option ℚ := match y with
    | .num q => some (q * conv)
    | t => textYcoordAbs s t
  match xa?, ya? with
  | some xa, some ya =>
      let xa := match off with | some o => xa + o.1 * conv | none => xa
      let ya := match off with | some o => ya + o.2 * conv | none => ya
      some (xa / s.pagewidth, ya / s.pageheight)
  | _, _ => none

/-! Concrete configurations used as counterexamples and witnesses. -/

/-- A margin state on a 10×10 page with all four margins 1:
the frame invariant holds (frame = 8 on both axes). -/
def cState0 : MState :=
  { pagewidth := 10, pageheight := 10, leftmargin := 1, rightmargin := 1,
    topmargin := 1, bottommargin := 1, marginpad := 0, framewidth := 8,
    frameheight := 8, figure_unit_conversion := 1, marginframe := true }

/-- A left-anchored box whose declared width 9 exceeds the frame width 8. -/
def cBoxWide : BoxCfg :=
  { box_frame := true, box_position_x := .left_margin, box_position_y := .num 0,
    box_width := .num 9, box_height := .num 0 }

/-- Margin state produced by placing `cBoxWide` on `cState0`: the left
margin was set to 10 but the frame width was left at 8. -/
def cStateWide : MState :=
  { pagewidth := 10, pageheight := 10, leftmargin := 10, rightmargin := 1,
    topmargin := 1, bottommargin := 1, marginpad := 0, framewidth := 8,
    frameheight := 8, figure_unit_conversion := 1, marginframe := true }

/-- A left-anchored box of width 2, narrower than the frame. -/
def cBoxSafe : BoxCfg :=
  { box_frame := true, box_position_x := .left_margin, box_position_y := .num 0,
    box_width := .num 2, box_height := .num 0 }

/-- Margin state produced by placing `cBoxSafe` on `cState0`. -/
def cStateSafe : MState :=
  { pagewidth := 10, pageheight := 10, leftmargin := 3, rightmargin := 1,
    topmargin := 1, bottommargin := 1, marginpad := 0, framewidth := 6,
    frameheight := 8, figure_unit_conversion := 1, marginframe := true }

/-- A box anchored at `top_margin` with declared height `0.5` and width
equal to the frame width. -/
def cBoxTopHalf : BoxCfg :=
  { box_frame := true, box_position_x := .num 2, box_position_y := .top_margin,
    box_width := .num 8, box_height := .num (1 / 2) }

/-- A box anchored at `top_margin` with declared height `-0.5`. -/
def cBoxTopNeg : BoxCfg :=
  { box_frame := true, box_position_x := .num 2, box_position_y := .top_margin,
    box_width := .num 8, box_height := .num (-(1 / 2)) }

/-- A millimeter layout with the margin frame enabled and no boxes. -/
def cLayoutMM : Layout :=
  { figure_unit_mm := true, margin_frame := true, left_margin := 10,
    right_margin := 10, top_margin := 10, bottom_margin := 10, margin_pad := 2,
    boxes := [] }

/-- Cursor state holding an explicit start index (1,1) on a 2×2 grid in
top-to-bottom direction, as left by an explicit positional request. -/
def cCursorAt11 : CursorState :=
  { nrows := 2, ncols := 2, direction := .topToBottom,
    subplotstartindex := some (1, 1), currentsubplotindex := some (1, 1),
    pagesFlushed := 0 }

/-! Helper lemmas about the margin mutation steps. -/

lemma vertStep_framewidth (s : MState) (b : BoxCfg) :
    (vertStep s b).framewidth = s.framewidth := by
  unfold vertStep
  cases b.box_position_y <;> cases b.box_width <;> dsimp only <;>
    (try split_ifs) <;> rfl

lemma vertStep_leftmargin (s : MState) (b : BoxCfg) :
    (vertStep s b).leftmargin = s.leftmargin := by
  unfold vertStep
  cases b.box_position_y <;> cases b.box_width <;> dsimp only <;>
    (try split_ifs) <;> rfl

lemma vertStep_inv (s : MState) (b : BoxCfg) (hinv : s.inv) :
    (vertStep s b).inv := by
  obtain ⟨h1, h2⟩ := hinv
  unfold vertStep MState.inv
  cases b.box_position_y <;> dsimp only
  case top_margin =>
    split_ifs with hc hneg
    · refine ⟨h1, ?_⟩
      dsimp only
      rw [abs_of_neg hneg]
      linarith
    · exact absurd (by linarith : resolveHeight s b < 0) hneg
    · exact ⟨h1, h2⟩
  case bottom_margin =>
    split_ifs with hc
    · cases b.box_width
      · refine ⟨h1, ?_⟩
        dsimp only
        linarith
      · exact ⟨h1, h2⟩
    · exact ⟨h1, h2⟩
  case num => exact ⟨h1, h2⟩

lemma horizStep_inv (s : MState) (x w : ℚ) (hinv : s.inv)
    (hsafe : w = s.framewidth ∨ w ≤ 0 ∨ x + w ≤ s.leftmargin ∨
      (x = s.leftmargin ∧ w < s.framewidth)) :
    (horizStep s x w).inv := by
  obtain ⟨h1, h2⟩ := hinv
  unfold horizStep MState.inv
  split_ifs with hne hpos hgt hlt
  · rcases hsafe with h | h | h | ⟨hx, hw⟩
    · exact absurd h hne
    · exact absurd h (by linarith)
    · exact absurd h (by linarith)
    · refine ⟨?_, h2⟩
      dsimp only
      rw [hx]
      linarith
  · rcases hsafe with h | h | h | ⟨hx, hw⟩
    · exact absurd h hne
    · exact absurd h (by linarith)
    · exact absurd h (by linarith)
    · exact absurd hw hlt
  · exact ⟨h1, h2⟩
  · refine ⟨?_, h2⟩
    dsimp only
    linarith
  · exact ⟨h1, h2⟩

lemma resolveWidth_vertStep (s : MState) (b : BoxCfg) :
    resolveWidth (vertStep s b) b = resolveWidth s b := by
  unfold resolveWidth
  cases b.box_width
  · rw [vertStep_framewidth]
  · rfl

/-! Theorems settling the claims. -/

/-- C1 (counterexample): the `MarginFrame` invariant does not survive every
box mutation. Starting from a valid state on a 10×10 page with margins 1,
a left-anchored box of declared width 9 (exceeding the frame width 8) sets
the left margin to 10 without shrinking the frame width, so afterwards
`frame_width = 8 ≠ page_width - left - right = -1`. -/
theorem marginFrame_invariant_cex :
    MState.inv cState0 ∧ boxFromLabel cState0 cBoxWide = some cStateWide ∧
      ¬ MState.inv cStateWide := by
  refine ⟨by norm_num [MState.inv, cState0], ?_, by norm_num [MState.inv, cStateWide]⟩
  norm_num [boxFromLabel, cState0, cBoxWide, cStateWide, resolveXcoord,
    resolveWidth, resolveHeight, vertStep, horizStep]

/-- C1 (amended): the invariant
`frame_width = page_width - left - right ∧ frame_height = page_height - top - bottom`
is preserved by an individual box mutation provided the horizontal step is
non-destructive: the resolved width equals the frame width, or is
non-positive, or the box's right edge does not pass the current left
margin, or the box is anchored exactly at the left margin with a width
strictly below the frame width. Vertical (top/bottom) mutations always
preserve the invariant. For a positive width whose new left edge
`xcoord + width` exceeds the left margin with `width ≥ frame_width`, or
with an anchor other than the left margin, the code breaks the invariant
(see the counterexample). -/
theorem boxFromLabel_preserves_inv (s s' : MState) (b : BoxCfg) (x : ℚ)
    (hinv : s.inv)
    (hx : resolveXcoord s b = some x)
    (hsafe : resolveWidth s b = s.framewidth ∨ resolveWidth s b ≤ 0 ∨
      x + resolveWidth s b ≤ s.leftmargin ∨
      (x = s.leftmargin ∧ resolveWidth s b < s.framewidth))
    (h : boxFromLabel s b = some s') : s'.inv := by
  by_cases hbf : b.box_frame = true
  · rw [boxFromLabel, if_pos hbf, hx] at h
    injection h with h
    subst h
    rw [resolveWidth_vertStep]
    apply horizStep_inv _ _ _ (vertStep_inv s b hinv)
    rw [vertStep_framewidth, vertStep_leftmargin]
    exact hsafe
  · rw [boxFromLabel, if_neg hbf] at h
    injection h with h
    subst h
    exact hinv

/-- Witness for `boxFromLabel_preserves_inv`: the safe left-anchored box of
width 2 on the valid 10×10 state keeps the invariant. -/
theorem boxFromLabel_preserves_inv_witness : MState.inv cStateSafe :=
  boxFromLabel_preserves_inv cState0 cStateSafe cBoxSafe 1
    (by norm_num [MState.inv, cState0])
    (by norm_num [resolveXcoord, cBoxSafe, cState0])
    (Or.inr (Or.inr (Or.inr
      ⟨by norm_num [cState0], by norm_num [resolveWidth, cBoxSafe, cState0]⟩)))
    (by norm_num [boxFromLabel, cState0, cBoxSafe, cStateSafe, resolveXcoord,
      resolveWidth, resolveHeight, vertStep, horizStep])

/-- C2 (counterexample): a box anchored at `top_margin` with declared height
`0.5` leaves the margin state — in particular `frame_height` — completely
unchanged (the guard `ycoord + height < pageheight - topmargin` only admits
negative heights), instead of increasing `frame_height` by 0.5 over the
no-box baseline. -/
theorem topMarginBox_halfInch_cex :
    boxFromLabel cState0 cBoxTopHalf = some cState0 ∧
      cState0.frameheight = 8 ∧ ¬ cState0.frameheight = 8 + 1 / 2 := by
  refine ⟨?_, by norm_num [cState0], by norm_num [cState0]⟩
  norm_num [boxFromLabel, cState0, cBoxTopHalf, resolveXcoord, resolveWidth,
    resolveHeight, vertStep, horizStep]

/-- C2 (amended): for a box anchored at `top_margin` with numeric position,
numeric height `h` and numeric width equal to the current frame width, the
mutation changes the frame exactly when `h < 0`: then `frame_height`
changes by `h` (that is, shrinks by `|h|`) and the top margin is pushed
outward by `|h|`; when `h ≥ 0` the state is unchanged, so a positive
declared height never grows `frame_height`. -/
theorem topMarginBox_frameheight_change (s : MState) (b : BoxCfg) (h q w : ℚ)
    (hbf : b.box_frame = true)
    (hy : b.box_position_y = .top_margin)
    (hh : b.box_height = .num h)
    (hx : b.box_position_x = .num q)
    (hw : b.box_width = .num w)
    (hwid : w = s.framewidth) :
    boxFromLabel s b = some (vertStep s b) ∧
      (h < 0 → (vertStep s b).frameheight = s.frameheight + h ∧
        (vertStep s b).topmargin = s.topmargin + |h|) ∧
      (0 ≤ h → vertStep s b = s) := by
  have hxr : resolveXcoord s b = some q := by
    unfold resolveXcoord; rw [hx]
  have hwr : resolveWidth (vertStep s b) b = s.framewidth := by
    unfold resolveWidth; rw [hw, hwid]
  have hhr : resolveHeight s b = h := by
    unfold resolveHeight; rw [hh]
  refine ⟨?_, ?_, ?_⟩
  · rw [boxFromLabel, if_pos hbf, hxr]
    dsimp only
    rw [hwr]
    unfold horizStep
    rw [if_neg (by rw [vertStep_framewidth]; simp)]
  · intro hneg
    unfold vertStep
    rw [hy, hhr]
    dsimp only
    rw [if_pos (show s.pageheight - s.topmargin + h <
          s.pageheight - s.topmargin by linarith), if_pos hneg]
    exact ⟨rfl, rfl⟩
  · intro hpos
    unfold vertStep
    rw [hy, hhr]
    dsimp only
    rw [if_neg (show ¬ s.pageheight - s.topmargin + h <
          s.pageheight - s.topmargin by intro hc; linarith)]

/-- Witness for `topMarginBox_frameheight_change`: a top-anchored box of
height `-0.5` on the valid 10×10 state shrinks the frame height to 7.5 and
pushes the top margin to 1.5. -/
theorem topMarginBox_frameheight_change_witness :
    boxFromLabel cState0 cBoxTopNeg = some (vertStep cState0 cBoxTopNeg) ∧
      (vertStep cState0 cBoxTopNeg).frameheight = 8 + -(1 / 2) ∧
      (vertStep cState0 cBoxTopNeg).topmargin = 1 + |(-(1 / 2) : ℚ)| := by
  have h := topMarginBox_frameheight_change cState0 cBoxTopNeg (-(1 / 2)) 2 8
    rfl rfl rfl rfl rfl (by norm_num [cState0])
  exact ⟨h.1, (h.2.1 (by norm_num)).1, (h.2.1 (by norm_num)).2⟩

/-- C3 (code evaluated at the failing input): for the millimeter layout with
the margin frame enabled, `draw_page()` re-runs `_update_from_layout`,
which multiplies the page dimensions by the 0.0393701 factor on every call,
so two successive draws after construction do not leave identical page
widths — the margin state is not re-derived idempotently for mm layouts. -/
theorem drawPage_mm_drift :
    (((initDrawn cLayoutMM 100 200).bind (drawPageMargins cLayoutMM)).bind
        (drawPageMargins cLayoutMM)).map MState.pagewidth ≠
      ((initDrawn cLayoutMM 100 200).bind (drawPageMargins cLayoutMM)).map
        MState.pagewidth := by
  norm_num [initDrawn, drawPageMargins, placeBoxes, updateFromLayout,
    initMState, cLayoutMM, mmToInch, Option.bind]

/-- C4: on a 3×3 grid in left-to-right direction, nine implicit
`add_subplot()` calls from the fresh cursor produce exactly the row-major
sequence (0,0)…(2,2) with no page flush, and the tenth call performs
exactly one rollover (one flush and one new page) and resumes at (0,0). -/
theorem cursor3x3_roundTrip :
    cursorTrace 9 (initCursor 3 3) =
      [some (0, 0), some (0, 1), some (0, 2), some (1, 0), some (1, 1),
        some (1, 2), some (2, 0), some (2, 1), some (2, 2)] ∧
      (implicitIter 9 (initCursor 3 3)).map CursorState.pagesFlushed = some 0 ∧
      (implicitIter 10 (initCursor 3 3)).map
          (fun s => (s.pagesFlushed, s.currentsubplotindex)) =
        some (1, some (0, 0)) := by
  refine ⟨by decide, by decide, by decide⟩

/-- C5 (counterexample): after an explicit positional request at (1,1) on a
2×2 grid, an implicit top-to-bottom request exhausts the grid and rolls
over — but the new page's cursor resumes at (1,1), not (0,0), and the
stored direction has been reset to left-to-right by `add_page`'s default
`direction` argument, not kept at top-to-bottom. -/
theorem rollover_cex :
    (addSubplot (some .topToBottom) (some (1, 1)) (initCursor 2 2)).bind
        (addSubplot (some .topToBottom) none) =
      some { cCursorAt11 with direction := .leftToRight, pagesFlushed := 1 } ∧
      Direction.leftToRight ≠ Direction.topToBottom ∧
      (some (1, 1) : Option (Int × Int)) ≠ some (0, 0) := by
  refine ⟨by decide, by decide, by decide⟩

/-- C5 (amended): whenever an implicit request (in either direction) finds
the grid exhausted, the rollover keeps `nrows` and `ncols` unchanged and
resumes the cursor at the stored `subplotstartindex` — which is (0,0) only
when that stored index is (0,0) — while `add_page`'s default `direction`
argument resets the direction to left-to-right, and the stored start index
is cleared exactly when it is (0,0). -/
theorem rollover_resumes_at_start (s : CursorState) (d : Direction)
    (p : Int × Int) (r c : Int)
    (hssi : s.subplotstartindex = some p)
    (hcur : s.currentsubplotindex = some (r, c))
    (hc : ¬ c < s.ncols - 1) (hr : ¬ r < s.nrows - 1) :
    addSubplot (some d) none s =
      some { s with direction := .leftToRight,
                    pagesFlushed := s.pagesFlushed + 1,
                    subplotstartindex := if p = (0, 0) then none else some p,
                    currentsubplotindex := some p } := by
  cases d <;>
    simp only [addSubplot, addPageCursor, hssi, hcur, hc, hr, if_false,
      Option.some.injEq, or_false, reduceCtorEq]

/-- Witness for `rollover_resumes_at_start`: the 2×2 top-to-bottom rollover
from stored start index (1,1). -/
theorem rollover_resumes_at_start_witness :
    addSubplot (some .topToBottom) none cCursorAt11 =
      some { cCursorAt11 with direction := .leftToRight,
                              pagesFlushed := 1,
                              subplotstartindex :=
                                if ((1, 1) : Int × Int) = (0, 0) then none
                                else some (1, 1),
                              currentsubplotindex := some (1, 1) } :=
  rollover_resumes_at_start cCursorAt11 .topToBottom (1, 1) 1 1 (by decide)
    (by decide) (by decide) (by decide)

/-- C6: for any catalog width/height pair and any requested orientation
(or none), `_set_paper_size_orientation` yields page dimensions consistent
with the resolved orientation — portrait implies height ≥ width, landscape
implies width ≥ height — and when the requested orientation disagrees with
the catalog's natural ordering the two dimensions are swapped. Since this
holds for every (width, height) pair, it holds for every paper-size name in
the catalog. -/
theorem paperSize_orientation_ordering (w h : ℚ) (o : Option Orient) :
    ((setPaperSizeOrientation w h o).orient = .portrait →
      (setPaperSizeOrientation w h o).pagewidth ≤
        (setPaperSizeOrientation w h o).pageheight) ∧
    ((setPaperSizeOrientation w h o).orient = .landscape →
      (setPaperSizeOrientation w h o).pageheight ≤
        (setPaperSizeOrientation w h o).pagewidth) ∧
    (o = some .portrait → h < w →
      setPaperSizeOrientation w h o = ⟨h, w, .portrait⟩) ∧
    (o = some .landscape → w < h →
      setPaperSizeOrientation w h o = ⟨h, w, .landscape⟩) := by
  rcases o with _ | x
  · unfold setPaperSizeOrientation
    split_ifs with h1 h2 h3 <;>
      refine ⟨?_, ?_, by simp, by simp⟩ <;> intro horient <;>
      first
        | (simp only [] at horient ⊢; linarith)
        | (exact absurd horient (by simp))
  · cases x <;> unfold setPaperSizeOrientation <;> split_ifs with h1 <;>
      refine ⟨?_, ?_, ?_, ?_⟩ <;>
      intro ha <;> try intro hb
    all_goals first
      | rfl
      | (simp only [] at ha ⊢; linarith)
      | (exact absurd ha (by simp))

/-- Witness for `paperSize_orientation_ordering`: letter paper (8.5 × 11)
requested in portrait keeps its ordering, and the same catalog entry stored
as 11 × 8.5 requested in portrait is swapped to (8.5, 11). -/
theorem paperSize_orientation_ordering_witness :
    (setPaperSizeOrientation (17 / 2) 11 (some .portrait)).pagewidth ≤
      (setPaperSizeOrientation (17 / 2) 11 (some .portrait)).pageheight ∧
    setPaperSizeOrientation 11 (17 / 2) (some .portrait) =
      ⟨17 / 2, 11, .portrait⟩ := by
  have hord : (setPaperSizeOrientation (17 / 2) 11 (some .portrait)).orient =
      .portrait := by
    norm_num [setPaperSizeOrientation]
  exact ⟨(paperSize_orientation_ordering (17 / 2) 11 (some .portrait)).1 hord,
    (paperSize_orientation_ordering 11 (17 / 2) (some .portrait)).2.2.1 rfl
      (by norm_num)⟩

/-- C7 (counterexample): in a millimeter configuration, a text entry's
declared numeric position is not multiplied by the fixed conversion factor
before the geometry math — the code divides the raw declared value by the
converted page dimension, unlike the spec-modelled converted resolver. -/
theorem mm_textPosition_cex :
    cLayoutMM.figure_unit_mm = true ∧
      textNormPos (updateFromLayout cLayoutMM (initMState 100 200))
          (.num 50) (.num 50) none ≠
        textNormPosConverted (updateFromLayout cLayoutMM (initMState 100 200))
          (.num 50) (.num 50) none := by
  refine ⟨rfl, ?_⟩
  norm_num [textNormPos, textNormPosConverted, textXcoordAbs, textYcoordAbs,
    updateFromLayout, initMState, cLayoutMM, mmToInch]

/-- C7 (amended): for a millimeter layout with the margin frame enabled,
`_update_from_layout` converts exactly the four margins, the margin pad and
the page dimensions by the fixed factor, while a text entry's declared
numeric position is used unconverted: it is divided by the (converted) page
dimensions as-is. -/
theorem mm_conversion_scope (L : Layout) (s : MState) (q p : ℚ)
    (hmm : L.figure_unit_mm = true) (hmf : L.margin_frame = true) :
    (updateFromLayout L s).leftmargin = L.left_margin * mmToInch ∧
    (updateFromLayout L s).rightmargin = L.right_margin * mmToInch ∧
    (updateFromLayout L s).topmargin = L.top_margin * mmToInch ∧
    (updateFromLayout L s).bottommargin = L.bottom_margin * mmToInch ∧
    (updateFromLayout L s).marginpad = L.margin_pad * mmToInch ∧
    (updateFromLayout L s).pagewidth = s.pagewidth * mmToInch ∧
    (updateFromLayout L s).pageheight = s.pageheight * mmToInch ∧
    textNormPos (updateFromLayout L s) (.num q) (.num p) none =
      some (q / (s.pagewidth * mmToInch), p / (s.pageheight * mmToInch)) := by
  unfold updateFromLayout textNormPos textXcoordAbs textYcoordAbs
  rw [hmm, hmf]
  simp

/-- Witness for `mm_conversion_scope`: the concrete millimeter layout on a
100 × 200 catalog page with declared text position (50, 50). -/
theorem mm_conversion_scope_witness :
    (updateFromLayout cLayoutMM (initMState 100 200)).leftmargin =
        cLayoutMM.left_margin * mmToInch ∧
      textNormPos (updateFromLayout cLayoutMM (initMState 100 200))
          (.num 50) (.num 50) none =
        some (50 / (100 * mmToInch), 50 / (200 * mmToInch)) := by
  have h := mm_conversion_scope cLayoutMM (initMState 100 200) 50 50 rfl rfl
  exact ⟨h.1, by rw [h.2.2.2.2.2.2.2]; norm_num [initMState]⟩

/-- C8: for a single-file-per-page document based on `plot.png`, after `n`
flushes the written filenames are exactly `plot.png, plot_02.png,
plot_03.png, …` in order, the active filename is the next name in that
sequence, and the final `close` writes it as well: each flush writes the
active filename and then inserts the zero-padded page index before the
extension. -/
theorem singleFile_name_sequence (n : Nat) :
    (flushIter n (initDoc "plot.png")).written =
        (List.range n).map expectedPlotName ∧
      (flushIter n (initDoc "plot.png")).new_fname = expectedPlotName n ∧
      (closeSingle (flushIter n (initDoc "plot.png"))).written =
        (List.range (n + 1)).map expectedPlotName := by
  have hsplit : splitext "plot.png" = ("plot", ".png") := by decide
  have main : ∀ m : Nat,
      (flushIter m (initDoc "plot.png")).written =
          (List.range m).map expectedPlotName ∧
        (flushIter m (initDoc "plot.png")).new_fname = expectedPlotName m ∧
        (flushIter m (initDoc "plot.png")).fignumber = m + 1 ∧
        (flushIter m (initDoc "plot.png")).outfile = "plot.png" := by
    intro m
    induction m with
    | zero => exact ⟨rfl, rfl, rfl, rfl⟩
    | succ k ih =>
        obtain ⟨hw, hn, hf, ho⟩ := ih
        rw [flushIter]
        unfold flushSingle
        rw [hw, hn, hf, ho, hsplit]
        refine ⟨?_, ?_, rfl, rfl⟩
        · rw [List.range_succ, List.map_append]
          rfl
        · show "plot" ++ "_" ++ pad2 (k + 1 + 1) ++ ".png" =
            expectedPlotName (k + 1)
          rw [expectedPlotName, if_neg (Nat.succ_ne_zero k)]
  obtain ⟨hw, hn, _, _⟩ := main n
  refine ⟨hw, hn, ?_⟩
  unfold closeSingle
  rw [hw, hn, List.range_succ, List.map_append]
  rfl

/-- C9: when the constructor is given an outfile path that is not a
directory and does not already exist, no error is raised, the output type
stays `None` and the document is not multipage — even for a `.pdf` path —
so every `add_page` flush takes the `plt.show()` display branch and writes
nothing, and only `close()` writes, via the non-multipage single-save
branch. -/
theorem nonexistent_outfile_no_type (p : String) (ov yes : Bool) :
    initOutput (some p) false false ov yes = .ok (none, some p, false) ∧
      addPageFlushKind none = .displayOnly ∧
      closeKind (some p) none = .singleSave := by
  refine ⟨rfl, by decide, rfl⟩

/-- Witness for `nonexistent_outfile_no_type`: a fresh `plot.pdf` path. -/
theorem nonexistent_outfile_no_type_witness :
    initOutput (some "plot.pdf") false false false false =
        .ok (none, some "plot.pdf", false) ∧
      addPageFlushKind none = .displayOnly ∧
      closeKind (some "plot.pdf") none = .singleSave :=
  nonexistent_outfile_no_type "plot.pdf" false false

/-- C10: during the multipage flush of `add_page`, an `AttributeError` from
the backend save is re-raised as the domain error
"Cannot add a new page to a closed pdf file." exactly when its message is
the `endStream` message; any other `AttributeError` message is silently
swallowed and the flush is treated as successful. -/
theorem pdfFlush_errorFilter (m : String) :
    (pdfFlushResult (some m) = .error closedPdfMsg ↔ m = endStreamMsg) ∧
      (m ≠ endStreamMsg → pdfFlushResult (some m) = .ok ()) ∧
      pdfFlushResult none = .ok () := by
  refine ⟨⟨?_, ?_⟩, ?_, rfl⟩
  · intro h
    by_contra hne
    rw [pdfFlushResult, if_neg hne] at h
    exact Except.noConfusion h
  · intro h
    rw [pdfFlushResult, if_pos h]
  · intro h
    rw [pdfFlushResult, if_neg h]

/-- Witness for `pdfFlush_errorFilter`: the message "boom" is swallowed and
the exact `endStream` message is re-raised as the domain error. -/
theorem pdfFlush_errorFilter_witness :
    pdfFlushResult (some "boom") = .ok () ∧
      pdfFlushResult (some endStreamMsg) = .error closedPdfMsg :=
  ⟨(pdfFlush_errorFilter "boom").2.1 (by decide),
    (pdfFlush_errorFilter endStreamMsg).1.mpr rfl⟩

end FigPager
